import Mathlib

/-!
Verification of the mit-fred2 fiber-extruder control software.

The Python source is shallowly embedded over `ℚ` (Python floats and ints are
modelled as exact rationals/integers; the code performs no operation whose
claims here depend on rounding).  Fallible Python code (paths that raise) is
modelled with `Option`: `none` marks the point where the Python code raises an
exception.  External inputs (sensor voltages, encoder reads, GUI values,
camera measurements) are passed as explicit arguments.
-/

namespace MitFred

/-! ### Thermistor (src/extruder.py, class Thermistor)

Constants from the source: `VOLTAGE_SUPPLY = 3.3`, `RESISTOR = 10000`,
`RESISTANCE_AT_REFERENCE = 100000`, `BETA_COEFFICIENT = 3977`,
`REFERENCE_TEMPERATURE = 298.15`, `READINGS_TO_AVERAGE = 10`.

`math.log` is transcendental, hence not definable over `ℚ`; it is passed as an
abstract function argument `log : ℚ → ℚ`.  Python's `math.log` raises a domain
error when its argument is `≤ 0`, and float division raises `ZeroDivisionError`
when the divisor is exactly zero; both paths are modelled as `none`.  No claim
below depends on the values `log` takes, only on which paths are reached. -/

/-- Intermediate resistance computed by `Thermistor.get_temperature`:
`((VOLTAGE_SUPPLY - voltage) * RESISTOR) / voltage`. -/
def thermistor_resistance (voltage : ℚ) : ℚ :=
  ((33/10 - voltage) * 10000) / voltage

/-- Embedding of `Thermistor.get_temperature`.  `readings` is the shared list
`Database.temperature_readings`.  Returns `some (returned temperature, updated
readings)`, or `none` where the Python code raises (log-domain error for a
non-positive log argument, or exact division by zero). -/
def get_temperature (log : ℚ → ℚ) (voltage : ℚ) (readings : List ℚ) :
    Option (ℚ × List ℚ) :=
  if voltage < 1/10000 then
    some (0, readings)
  else
    let resistance := thermistor_resistance voltage
    if resistance / 100000 ≤ 0 then
      none
    else
      let ln := log (resistance / 100000)
      if ln / 3977 + 1 / (29815/100) = 0 then
        none
      else
        let temperature := 1 / (ln / 3977 + 1 / (29815/100)) - 27315/100
        let readings' := readings ++ [temperature]
        if readings'.length > 10 then
          some (((readings'.drop (readings'.length - 10)).sum) / 10, readings')
        else
          some ((readings'.sum) / (readings'.length : ℚ), readings')

/-- Feeding a sequence of raw voltages through `Thermistor.get_temperature`,
threading the shared readings list; collects the returned rolling averages
(`none` where the call raises, in which case the list is left unchanged,
matching the caller's catch-all handler). -/
def thermistor_run (log : ℚ → ℚ) : List ℚ → List ℚ → List (Option ℚ) × List ℚ
  | [], readings => ([], readings)
  | v :: vs, readings =>
    match get_temperature log v readings with
    | none =>
        let rest := thermistor_run log vs readings
        (none :: rest.1, rest.2)
    | some (t, readings') =>
        let rest := thermistor_run log vs readings'
        (some t :: rest.1, rest.2)

/-! ### Fiber camera diameter extraction (src/fiber_camera.py)

A Hough line is the quadruple `(x0, y0, x1, y1)` of `line[0]`.  The detected
line set is `Option (List Line)`: `cv2.HoughLinesP` returns `None` or an
array.  `sys.maxsize = 2^63 - 1` on the target platform. -/

/-- Accumulator state of the fold in `get_fiber_diameter`/`_noC`:
`(leftmost_min, leftmost_max, rightmost_min, rightmost_max)`. -/
def fiber_fold_step (acc : ℤ × ℤ × ℤ × ℤ) (line : ℤ × ℤ × ℤ × ℤ) :
    ℤ × ℤ × ℤ × ℤ :=
  let x0 := line.1
  let x1 := line.2.2.1
  (min acc.1 (min x0 x1),
   max acc.2.1 (min x0 x1),
   min acc.2.2.1 (max x0 x1),
   max acc.2.2.2 (max x0 x1))

/-- Embedding of `FiberCamera.get_fiber_diameter_noC`: pixel width without the
calibration coefficient.  Returns `0` when `lines` is `None` or has at most
one element. -/
def get_fiber_diameter_noC (lines : Option (List (ℤ × ℤ × ℤ × ℤ))) : ℚ :=
  match lines with
  | none => 0
  | some ls =>
    if ls.length ≤ 1 then 0
    else
      let acc := ls.foldl fiber_fold_step
        (9223372036854775807, 0, 9223372036854775807, 0)
      (((acc.2.1 - acc.1) + (acc.2.2.2 - acc.2.2.1) : ℤ) : ℚ) / 2

/-- Embedding of `FiberCamera.get_fiber_diameter`: same fold, multiplied by
`self.diameter_coefficient` (passed as `coeff`). -/
def get_fiber_diameter (coeff : ℚ) (lines : Option (List (ℤ × ℤ × ℤ × ℤ))) :
    ℚ :=
  match lines with
  | none => 0
  | some ls =>
    if ls.length ≤ 1 then 0
    else
      let acc := ls.foldl fiber_fold_step
        (9223372036854775807, 0, 9223372036854775807, 0)
      (((acc.2.1 - acc.1) + (acc.2.2.2 - acc.2.2.1) : ℤ) : ℚ) / 2 * coeff

/-- Embedding of `FiberCamera.calibrate`.  `diameter_mm, ok` come from the
`QInputDialog`; `measurements` is the sequence of `get_fiber_diameter_noC`
results over the successfully captured frames (frames whose capture fails are
skipped by the loop and so contribute nothing); `old_coeff` is the
`diameter_coefficient` in effect before the call.  Returns the
`diameter_coefficient` stored when the routine exits. -/
def fiber_calibrate (diameter_mm : ℚ) (ok : Bool) (measurements : List ℚ)
    (old_coeff : ℚ) : ℚ :=
  if !ok then old_coeff
  else
    let valid := measurements.filter (fun x => decide (0 < x))
    let average_diameter_px : ℚ :=
      if valid.length > 0 then valid.sum / (valid.length : ℚ) else 1
    diameter_mm / average_diameter_px

/-! ### Extruder temperature PID loop (src/extruder.py, Extruder) -/

/-- PID state of the extruder temperature loop (`previous_time`,
`previous_error`, `integral` from `Extruder.__init__`). -/
structure ExtruderState where
  previous_time : ℚ
  previous_error : ℚ
  integral : ℚ
  deriving Repr, DecidableEq

/-- Initial extruder PID state (`Extruder.__init__`: all zero). -/
def initExtruderState : ExtruderState := ⟨0, 0, 0⟩

/-- Result of one `temperature_control_loop` call: the PID state, the shared
`Database.temperature_readings` list, the duty cycle written to the heater PWM
(`none` when no write happens this tick), and the telemetry values appended to
the `Database.temperature_*` lists, in source order
`[timestamp, delta_time, setpoint, error, pid_output, kp, ki, kd]`
(`[]` when nothing is appended). -/
structure TempLoopResult where
  state : ExtruderState
  readings : List ℚ
  duty : Option ℚ
  telemetry : List ℚ
  deriving Repr, DecidableEq

/-- Embedding of `Extruder.temperature_control_loop`.  `voltage` is the ADC
channel voltage; the thermistor conversion happens inside the call and may
raise, in which case the loop's catch-all `except` swallows the exception
(state mutated up to that point is kept: `previous_time` is already updated).
Gate: returns unchanged when `current_time - previous_time <= SAMPLE_TIME`
(0.1 s).  Constants from the source: setpoint 95.0, `kp = 1`, `ki = 0.001`,
`kd = 0.6`, output clamped to `[MIN_OUTPUT, MAX_OUTPUT] = [0, 100]`. -/
def temperature_control_loop (s : ExtruderState) (readings : List ℚ)
    (log : ℚ → ℚ) (current_time voltage : ℚ) : TempLoopResult :=
  if current_time - s.previous_time ≤ 1/10 then
    ⟨s, readings, none, []⟩
  else
    let delta_time := current_time - s.previous_time
    match get_temperature log voltage readings with
    | none => ⟨{ s with previous_time := current_time }, readings, none, []⟩
    | some (temperature, readings') =>
      let error := 95 - temperature
      let integral := s.integral + error * delta_time
      let derivative := (error - s.previous_error) / delta_time
      let output := 1 * error + 1/1000 * integral + 3/5 * derivative
      let output := if output > 100 then 100 else if output < 0 then 0 else output
      ⟨⟨current_time, error, integral⟩, readings', some output,
       [current_time, delta_time, 95, error, output, 1, 1/1000, 3/5]⟩

/-! ### Spooler (src/spooler.py)

Constants from the source: `PULSES_PER_REVOLUTION = 4704`,
`READINGS_TO_AVERAGE = 10`, `SAMPLE_TIME = 0.1`, `DIAMETER_PREFORM = 7`,
`DIAMETER_SPOOL = 15.2`. -/

/-- Control state of the spooler (`Spooler.__init__` lines 39-44). -/
structure SpoolerState where
  previous_time : ℚ
  integral_diameter : ℚ
  previous_error_diameter : ℚ
  previous_position : ℤ
  integral_motor : ℚ
  previous_error_motor : ℚ
  deriving Repr, DecidableEq

/-- Initial spooler control state (all zero). -/
def initSpoolerState : SpoolerState := ⟨0, 0, 0, 0, 0, 0⟩

/-- Embedding of `Spooler.read_encoder`: the 32-bit count assembled from the
four bytes read over SPI, `(c1 << 24) + (c2 << 16) + (c3 << 8) + c4`. -/
def read_encoder (c1 c2 c3 c4 : ℕ) : ℤ :=
  ((c1 <<< 24) + (c2 <<< 16) + (c3 <<< 8) + c4 : ℕ)

/-- Embedding of `Spooler.get_average_diameter` over the shared list
`Database.diameter_readings`.  When the list has fewer than 10 entries the code
divides by its length, so the empty list raises `ZeroDivisionError` (`none`);
otherwise it averages the last 10 entries (`readings[-10:]`). -/
def get_average_diameter (readings : List ℚ) : Option ℚ :=
  if readings.length < 10 then
    if readings.length = 0 then none
    else some (readings.sum / (readings.length : ℚ))
  else
    some ((readings.drop (readings.length - 10)).sum / 10)

/-- Embedding of `Spooler.diameter_to_rpm`.  `stepper_rpm` is the value the
method resolves from `gui.extrusion_motor_speed` (0.0 when the attribute is
missing or its `value()` raises).  Formula from the source:
`25/28 * 11 * stepper_rpm * (DIAMETER_PREFORM² / (DIAMETER_SPOOL * diameter²))`.
Note Python raises `ZeroDivisionError` when `diameter = 0`; callers below
model that path explicitly. -/
def diameter_to_rpm (stepper_rpm diameter : ℚ) : ℚ :=
  25/28 * 11 * stepper_rpm * (7^2 / (152/10 * diameter^2))

/-- Embedding of `Spooler.rpm_to_duty_cycle`: `slope * rpm + intercept`. -/
def rpm_to_duty_cycle (slope intercept rpm : ℚ) : ℚ :=
  slope * rpm + intercept

/-- Result of one spooler control-loop call: the control state, the duty cycle
written via `update_duty_cycle` (`none` when no write happens), the telemetry
values appended to the `Database.spooler_*` lists in source order (`[]` when
nothing is appended), the RPM setpoint handed to the motor PID (also sent to
`motor_plot.update_plot`), and the measured RPM. -/
structure SpoolerLoopResult where
  state : SpoolerState
  duty : Option ℚ
  telemetry : List ℚ
  setpointRpm : Option ℚ
  currentRpm : Option ℚ
  deriving Repr, DecidableEq

/-- Embedding of `Spooler.dc_motor_close_loop_control`.  `encoder` is the count
returned by `read_encoder` this tick, `motor_setpoint` the plain attribute
`gui.motor_setpoint`, `slope`/`intercept` the motor calibration data.  Gate:
no-op when `current_time - previous_time <= SAMPLE_TIME` (0.1 s).  PID gains
from the source: `kp = 0.4`, `ki = 0.2`, `kd = 0.05`; integral clamped to
`[-100, 100]`; duty cycle clamped to `[0, 100]`.  Telemetry appended:
`[timestamp, delta_time, setpoint, rpm, kp, ki, kd]`. -/
def dc_motor_close_loop_control (s : SpoolerState) (current_time : ℚ)
    (encoder : ℤ) (motor_setpoint slope intercept : ℚ) : SpoolerLoopResult :=
  if current_time - s.previous_time ≤ 1/10 then
    ⟨s, none, [], none, none⟩
  else
    let delta_time := current_time - s.previous_time
    let delta_position := encoder - s.previous_position
    let current_rpm := ((delta_position : ℚ) / 4704) * (60 / delta_time)
    let error := motor_setpoint - current_rpm
    let integral_motor := max (min (s.integral_motor + error * delta_time) 100) (-100)
    let derivative := (error - s.previous_error_motor) / delta_time
    let output := 4/10 * error + 2/10 * integral_motor + 5/100 * derivative
    let output_duty_cycle := max (min (rpm_to_duty_cycle slope intercept output) 100) 0
    ⟨⟨current_time, s.integral_diameter, s.previous_error_diameter,
      encoder, integral_motor, error⟩,
     some output_duty_cycle,
     [current_time, delta_time, motor_setpoint, current_rpm, 4/10, 2/10, 5/100],
     some motor_setpoint, some current_rpm⟩

/-- Embedding of `Spooler.motor_control_loop` (diameter cascade).  `encoder`,
`slope`, `intercept` as in the motor loop; `target_diameter` is
`gui.target_diameter.value()`, `readings` the shared
`Database.diameter_readings` list, `stepper_rpm` the value `diameter_to_rpm`
resolves from the GUI.  Exceptions reach the loop's catch-all handler at two
places: `get_average_diameter` on an empty readings list, and the
`ZeroDivisionError` inside `diameter_to_rpm` when `target_diameter = 0`; in
both cases the state mutated before the raise is kept and nothing further
happens.  Gains: diameter PID `0.1/0.01/0.01` with integral clamped to
`[-0.5, 0.5]`; the RPM setpoint is `max(min(diameter_to_rpm(target), 0), 60)`;
motor PID `0.4/0.2/0.05` with integral clamped to `[-100, 100]`; duty clamped
to `[0, 100]`.  Telemetry appended: `[timestamp, delta_time]`. -/
def motor_control_loop (s : SpoolerState) (current_time : ℚ) (encoder : ℤ)
    (target_diameter : ℚ) (readings : List ℚ) (stepper_rpm slope intercept : ℚ) :
    SpoolerLoopResult :=
  if current_time - s.previous_time ≤ 1/10 then
    ⟨s, none, [], none, none⟩
  else
    let delta_time := current_time - s.previous_time
    let delta_position := encoder - s.previous_position
    let current_rpm := ((delta_position : ℚ) / 4704) * (60 / delta_time)
    let s₁ := { s with previous_time := current_time, previous_position := encoder }
    match get_average_diameter readings with
    | none => ⟨s₁, none, [], none, none⟩
    | some current_diameter =>
      let error := target_diameter - current_diameter
      let integral_diameter := max (min (s.integral_diameter + error * delta_time) (1/2)) (-(1/2))
      let s₂ := { s₁ with integral_diameter := integral_diameter,
                          previous_error_diameter := error }
      if target_diameter = 0 then
        ⟨s₂, none, [], none, none⟩
      else
        let setpoint_rpm := max (min (diameter_to_rpm stepper_rpm target_diameter) 0) 60
        let error_motor := setpoint_rpm - current_rpm
        let integral_motor := max (min (s.integral_motor + error_motor * delta_time) 100) (-100)
        let derivative_motor := (error_motor - s.previous_error_motor) / delta_time
        let output_motor := 4/10 * error_motor + 2/10 * integral_motor
                              + 5/100 * derivative_motor
        let output_duty_cycle := max (min (rpm_to_duty_cycle slope intercept output_motor) 100) 0
        ⟨{ s₂ with integral_motor := integral_motor,
                   previous_error_motor := error_motor },
         some output_duty_cycle,
         [current_time, delta_time],
         some setpoint_rpm, some current_rpm⟩

/-- One call into the spooler control code, with all its external inputs. -/
inductive SpoolerEvent where
  | dc (current_time : ℚ) (encoder : ℤ) (motor_setpoint slope intercept : ℚ)
  | cascade (current_time : ℚ) (encoder : ℤ) (target_diameter : ℚ)
      (readings : List ℚ) (stepper_rpm slope intercept : ℚ)

/-- State reached by a sequence of spooler control-loop calls. -/
def runSpooler (events : List SpoolerEvent) (s : SpoolerState) : SpoolerState :=
  match events with
  | [] => s
  | .dc t enc sp sl ic :: rest =>
      runSpooler rest (dc_motor_close_loop_control s t enc sp sl ic).state
  | .cascade t enc target readings st sl ic :: rest =>
      runSpooler rest (motor_control_loop s t enc target readings st sl ic).state

/-! ### Spooler.calibrate exit paths (src/spooler.py, lines 252-289)

The routine sweeps duty cycles 20, 30, ..., 100, commanding each for 5
samples; its body is wrapped in `try ... except KeyboardInterrupt`, and
`self.stop()` is the last statement of the method, outside the `try`.  An
exception is modelled by an oracle saying after how many duty commands it is
raised and of which class; `none` means the body completes normally. -/

/-- Exception classes relevant to `Spooler.calibrate`. -/
inductive PyExc where
  | keyboardInterrupt
  | other
  deriving Repr, DecidableEq

/-- The full sequence of duty-cycle commands `calibrate` issues when nothing
interrupts it: `range(20, 101, 10)`, each commanded `num_samples = 5` times. -/
def calibrateCommands : List ℕ :=
  ((List.range 9).map (fun i => 20 + 10 * i)).flatMap (fun d => List.replicate 5 d)

/-- Embedding of the exit behaviour of `Spooler.calibrate`.  Returns the duty
commands issued before exit, whether `self.stop()` runs (zeroing the drive),
and whether an exception propagates out of the method.  A
`KeyboardInterrupt` is caught by the `except` clause and `stop()` still runs;
any other exception propagates immediately, skipping `stop()`. -/
def spooler_calibrate : Option (ℕ × PyExc) → List ℕ × Bool × Bool
  | none => (calibrateCommands, true, false)
  | some (k, .keyboardInterrupt) => (calibrateCommands.take k, true, false)
  | some (k, .other) => (calibrateCommands.take k, false, true)

/-! ### Specification-side definitions

These follow the wording of the spec (for refinement comparisons against the
code-derived definitions above); they are deliberately distinct from the
embeddings of the source. -/

/-- Spec wording for `get_average_diameter`: the arithmetic mean of the last
`min(10, length)` readings. -/
def spec_mean_last (l : List ℚ) : ℚ :=
  (l.drop (l.length - min 10 l.length)).sum / ((min 10 l.length : ℕ) : ℚ)

/-- Spec wording for the cascade setpoint: the volumetric-conservation
feedforward RPM evaluated at the averaged measured diameter, combined with the
trim term produced by the outer diameter PID. -/
def spec_rpm_setpoint (stepper_rpm current_diameter trim : ℚ) : ℚ :=
  diameter_to_rpm stepper_rpm current_diameter + trim

/-- Spec wording for the encoder delta: the true forward displacement of the
free-running 32-bit counter, i.e. the difference taken modulo `2^32`. -/
def spec_forward_displacement (c p : ℤ) : ℤ :=
  (c - p) % 2^32

/-- Both spooler integral accumulators sit inside their anti-windup clamps:
the motor integral in `[-100, 100]`, the diameter integral in `[-0.5, 0.5]`. -/
def IntegralBounds (s : SpoolerState) : Prop :=
  -100 ≤ s.integral_motor ∧ s.integral_motor ≤ 100 ∧
  -(1/2) ≤ s.integral_diameter ∧ s.integral_diameter ≤ 1/2

end MitFred

namespace MitFred

/-! ### Claims -/

/-- Claim C1 (counterexample).  On the synthetic line set
`[(10,0,10,50),(30,0,30,50),(70,0,70,50),(90,0,90,50)]` the extractor does not
return 20: the fold accumulates `leftmost_max` as the maximum of `min(x0,x1)`
over all lines (90 here) and `rightmost_min` as the minimum of `max(x0,x1)`
(10 here), so both widths are 80 and the result is `((90-10)+(90-10))/2 = 80`,
with or without a coefficient of 1. -/
theorem C1_counterexample :
    get_fiber_diameter_noC
        (some [(10,0,10,50),(30,0,30,50),(70,0,70,50),(90,0,90,50)]) = 80 ∧
    get_fiber_diameter 1
        (some [(10,0,10,50),(30,0,30,50),(70,0,70,50),(90,0,90,50)]) = 80 ∧
    (80 : ℚ) ≠ 20 := by
  refine ⟨?_, ?_, by norm_num⟩ <;>
    norm_num [get_fiber_diameter_noC, get_fiber_diameter, fiber_fold_step]

/-- Claim C1 (amended).  On the synthetic line set the vision diameter
extractor (`get_fiber_diameter_noC`, and `get_fiber_diameter` with
coefficient 1) returns pixel width `((90-10)+(90-10))/2 = 80`; and for every
input with zero lines (`None` or an empty list) or exactly one line, it
returns 0. -/
theorem C1_amended :
    get_fiber_diameter_noC
        (some [(10,0,10,50),(30,0,30,50),(70,0,70,50),(90,0,90,50)]) = 80 ∧
    get_fiber_diameter 1
        (some [(10,0,10,50),(30,0,30,50),(70,0,70,50),(90,0,90,50)]) = 80 ∧
    get_fiber_diameter_noC none = 0 ∧
    (∀ c : ℚ, get_fiber_diameter c none = 0) ∧
    (∀ (l : List (ℤ × ℤ × ℤ × ℤ)) (c : ℚ), l.length ≤ 1 →
      get_fiber_diameter_noC (some l) = 0 ∧ get_fiber_diameter c (some l) = 0) := by
  refine ⟨?_, ?_, rfl, fun c => rfl, fun l c h => ⟨?_, ?_⟩⟩
  · norm_num [get_fiber_diameter_noC, fiber_fold_step]
  · norm_num [get_fiber_diameter, fiber_fold_step]
  · simp [get_fiber_diameter_noC, h]
  · simp [get_fiber_diameter, h]

/-- Claim C1 (witness): the zero-or-one-line clause of `C1_amended` at the
single line `(1,2,3,4)` with coefficient 5. -/
theorem C1_witness :
    get_fiber_diameter_noC (some [(1,2,3,4)]) = 0 ∧
    get_fiber_diameter 5 (some [(1,2,3,4)]) = 0 :=
  C1_amended.2.2.2.2 [(1,2,3,4)] 5 (by decide)

/-- Claim C5 (counterexample).  At the supply voltage 3.3 V (and above, e.g.
4 V) `Thermistor.get_temperature` does not return the zero sentinel: the
computed resistance is non-positive, so `math.log` raises a domain error
(modelled as `none`) instead. -/
theorem C5_counterexample :
    get_temperature (fun _ => 0) (33/10) [] = none ∧
    get_temperature (fun _ => 0) 4 [] = none := by
  constructor <;> norm_num [get_temperature, thermistor_resistance]

/-- Claim C5 (amended).  A voltage strictly below the near-zero threshold
0.0001 V makes `Thermistor.get_temperature` return the zero sentinel without
touching the readings list; a voltage at or above the supply voltage 3.3 V is
not guarded: the computed resistance is non-positive and the call raises a
log-domain error (modelled as `none`) instead of returning a sentinel. -/
theorem C5_amended :
    (∀ (log : ℚ → ℚ) (v : ℚ) (readings : List ℚ), v < 1/10000 →
      get_temperature log v readings = some (0, readings)) ∧
    (∀ (log : ℚ → ℚ) (v : ℚ) (readings : List ℚ), 33/10 ≤ v →
      get_temperature log v readings = none) := by
  constructor
  · intro log v readings h
    unfold get_temperature
    rw [if_pos h]
  · intro log v readings h
    have hv : (0 : ℚ) < v := lt_of_lt_of_le (by norm_num) h
    have hnum : (33/10 - v) * 10000 ≤ 0 := by nlinarith
    have hres : thermistor_resistance v ≤ 0 :=
      div_nonpos_of_nonpos_of_nonneg hnum (le_of_lt hv)
    have hdiv : thermistor_resistance v / 100000 ≤ 0 :=
      div_nonpos_of_nonpos_of_nonneg hres (by norm_num)
    rw [get_temperature, if_neg (by push_neg; linarith), if_pos hdiv]

/-- Claim C5 (witness): `C5_amended` at 0 V (sentinel) and at 3.3 V
(log-domain error). -/
theorem C5_witness :
    get_temperature (fun _ => 1) 0 [5] = some (0, [5]) ∧
    get_temperature (fun _ => 1) (33/10) [5] = none :=
  ⟨C5_amended.1 (fun _ => 1) 0 [5] (by norm_num),
   C5_amended.2 (fun _ => 1) (33/10) [5] (by norm_num)⟩

/-- Claim C7 (counterexample).  With an entered reference diameter of 2.5 mm
and no valid (positive) pixel-width sample, `FiberCamera.calibrate` stores
`diameter_mm / 1 = 2.5`, not 1. -/
theorem C7_counterexample :
    fiber_calibrate (5/2) true [0, -1] 7 = 5/2 ∧ (5/2 : ℚ) ≠ 1 := by
  refine ⟨?_, by norm_num⟩
  norm_num [fiber_calibrate, List.filter]

/-- Claim C7 (amended).  When calibration obtains zero valid (positive)
pixel-width samples, no division by zero occurs — the fallback sets the
averaged pixel width to 1 — and the stored `diameter_coefficient` equals the
entered reference diameter `diameter_mm / 1 = diameter_mm` (not 1 in
general). -/
theorem C7_amended :
    ∀ (d : ℚ) (meas : List ℚ) (old : ℚ),
      (meas.filter (fun x => decide (0 < x))).length = 0 →
      fiber_calibrate d true meas old = d := by
  intro d meas old h
  simp [fiber_calibrate, h]

/-- Claim C7 (witness): `C7_amended` with reference diameter 4 and samples
`[0, -3]`, none of them valid. -/
theorem C7_witness : fiber_calibrate 4 true [0, -3] 9 = 4 :=
  C7_amended 4 [0, -3] 9 (by decide)

/-- Claim C9 (confirmed).  On the valid band strictly between the near-zero
threshold and the supply voltage, the thermistor conversion is strictly
monotone — a higher voltage yields a strictly lower computed resistance — and
feeding the same sequence of raw voltages through
`Thermistor.get_temperature` from the same initial history yields the same
sequence of rolling-average temperatures. -/
theorem C9_monotone_deterministic :
    (∀ v₁ v₂ : ℚ, 1/10000 < v₁ → v₁ < v₂ → v₂ < 33/10 →
      thermistor_resistance v₂ < thermistor_resistance v₁) ∧
    (∀ (log : ℚ → ℚ) (vs h₁ h₂ : List ℚ), h₁ = h₂ →
      thermistor_run log vs h₁ = thermistor_run log vs h₂) := by
  constructor
  · intro v₁ v₂ h₁ h₁₂ h₂
    have hv₁ : (0 : ℚ) < v₁ := lt_trans (by norm_num) h₁
    have hv₂ : (0 : ℚ) < v₂ := lt_trans hv₁ h₁₂
    unfold thermistor_resistance
    rw [div_lt_div_iff₀ hv₂ hv₁]
    nlinarith
  · intro log vs h₁ h₂ h
    rw [h]

/-- Claim C9 (witness): `C9_monotone_deterministic` at voltages 1 V and 2 V
and at the voltage sequence `[1, 2]` from the empty history. -/
theorem C9_witness :
    thermistor_resistance 2 < thermistor_resistance 1 ∧
    thermistor_run (fun _ => 0) [1, 2] [] = thermistor_run (fun _ => 0) [1, 2] [] :=
  ⟨C9_monotone_deterministic.1 1 2 (by norm_num) (by norm_num) (by norm_num),
   C9_monotone_deterministic.2 (fun _ => 0) [1, 2] [] [] rfl⟩

/-- A symmetric clamp `max (min x b) (-b)` with `0 ≤ b` lands in `[-b, b]`. -/
theorem clamp_mem (x b : ℚ) (hb : 0 ≤ b) :
    -b ≤ max (min x b) (-b) ∧ max (min x b) (-b) ≤ b :=
  ⟨le_max_right _ _, max_le (min_le_right _ _) (by linarith)⟩

/-- One `dc_motor_close_loop_control` call keeps both integral accumulators in
their anti-windup bands. -/
theorem dc_preserves_bounds (s : SpoolerState) (t : ℚ) (enc : ℤ)
    (sp sl ic : ℚ) (h : IntegralBounds s) :
    IntegralBounds (dc_motor_close_loop_control s t enc sp sl ic).state := by
  unfold dc_motor_close_loop_control
  split
  · exact h
  · exact ⟨(clamp_mem _ 100 (by norm_num)).1, (clamp_mem _ 100 (by norm_num)).2,
      h.2.2.1, h.2.2.2⟩

/-- One `motor_control_loop` call keeps both integral accumulators in their
anti-windup bands. -/
theorem cascade_preserves_bounds (s : SpoolerState) (t : ℚ) (enc : ℤ)
    (target : ℚ) (readings : List ℚ) (st sl ic : ℚ) (h : IntegralBounds s) :
    IntegralBounds (motor_control_loop s t enc target readings st sl ic).state := by
  unfold motor_control_loop
  split
  · exact h
  · split
    · exact ⟨h.1, h.2.1, h.2.2.1, h.2.2.2⟩
    · split
      · exact ⟨h.1, h.2.1, (clamp_mem _ (1/2) (by norm_num)).1,
          (clamp_mem _ (1/2) (by norm_num)).2⟩
      · exact ⟨(clamp_mem _ 100 (by norm_num)).1, (clamp_mem _ 100 (by norm_num)).2,
          (clamp_mem _ (1/2) (by norm_num)).1, (clamp_mem _ (1/2) (by norm_num)).2⟩

/-- Any sequence of spooler control-loop calls preserves the integral
anti-windup bands. -/
theorem runSpooler_preserves_bounds (events : List SpoolerEvent)
    (s : SpoolerState) (h : IntegralBounds s) :
    IntegralBounds (runSpooler events s) := by
  induction events generalizing s with
  | nil => exact h
  | cons e rest ih =>
    cases e with
    | dc t enc sp sl ic =>
        exact ih _ (dc_preserves_bounds s t enc sp sl ic h)
    | cascade t enc target readings st sl ic =>
        exact ih _ (cascade_preserves_bounds s t enc target readings st sl ic h)

/-- Claim C2 (counterexample).  The temperature loop applies no anti-windup
clamp: a single update at `current_time = 200` (with the sensor reporting the
no-reading sentinel 0 °C, so `error = 95`) drives the temperature integral to
`95 · 200 = 19000`, beyond 100 — the largest anti-windup or output bound
configured anywhere in the program. -/
theorem C2_counterexample :
    (temperature_control_loop initExtruderState [] (fun _ => 0) 200 0).state.integral
      = 19000 ∧ ¬ ((19000 : ℚ) ≤ 100) := by
  refine ⟨?_, by norm_num⟩
  norm_num [temperature_control_loop, get_temperature, initExtruderState]

/-- Claim C2 (amended).  For the two spooler PID loops and every sequence of
update calls from the initial state, the integral accumulators stay within
their configured anti-windup bounds after each update: the motor integral in
`[-100, 100]` and the diameter integral in `[-0.5, 0.5]`.  The temperature
loop has no integral clamp (see the counterexample). -/
theorem C2_amended :
    ∀ events : List SpoolerEvent,
      -100 ≤ (runSpooler events initSpoolerState).integral_motor ∧
      (runSpooler events initSpoolerState).integral_motor ≤ 100 ∧
      -(1/2) ≤ (runSpooler events initSpoolerState).integral_diameter ∧
      (runSpooler events initSpoolerState).integral_diameter ≤ 1/2 :=
  fun events => runSpooler_preserves_bounds events initSpoolerState
    ⟨by norm_num [initSpoolerState], by norm_num [initSpoolerState],
     by norm_num [initSpoolerState], by norm_num [initSpoolerState]⟩

/-- Claim C3 (code versus spec).  The cascade never passes the spec's
feedforward-plus-trim setpoint to the inner motor loop: on every path the
setpoint handed over is either absent or the constant 60, because the code
evaluates the feedforward at the *target* (not measured) diameter, never adds
the computed trim (`output` is dead), and the clamp `max(min(x, 0), 60)`
collapses every value to 60.  Concretely, from the initial state with target
1 mm, measured history `[2]` and extrusion speed 0, the code hands 60 to the
inner loop while the spec's combination of feedforward and the trim the outer
PID computes there (`-0.115`) is `-23/200`. -/
theorem C3_code_vs_spec :
    (∀ (s : SpoolerState) (t : ℚ) (enc : ℤ) (target : ℚ) (readings : List ℚ)
      (st sl ic : ℚ),
      (motor_control_loop s t enc target readings st sl ic).setpointRpm = none ∨
      (motor_control_loop s t enc target readings st sl ic).setpointRpm = some 60) ∧
    (motor_control_loop initSpoolerState 1 0 1 [2] 0 0 0).setpointRpm = some 60 ∧
    spec_rpm_setpoint 0 2 (-(23/200)) = -(23/200) ∧
    ((60 : ℚ) ≠ -(23/200)) := by
  refine ⟨?_, ?_, ?_, by norm_num⟩
  · intro s t enc target readings st sl ic
    unfold motor_control_loop
    split
    · exact Or.inl rfl
    · split
      · exact Or.inl rfl
      · split
        · exact Or.inl rfl
        · refine Or.inr ?_
          show some (max (min _ 0) 60) = some 60
          rw [max_eq_right (le_trans (min_le_right _ _) (by norm_num))]
  · norm_num [motor_control_loop, get_average_diameter, diameter_to_rpm,
      initSpoolerState]
  · norm_num [spec_rpm_setpoint, diameter_to_rpm]

/-- Claim C4 (confirmed).  When the 0.1 s sample interval has not elapsed,
each of the three control loops is a pure no-op: PID state is unchanged, no
telemetry is appended, the readings list is untouched, and no actuator output
is written. -/
theorem C4_rate_gate_no_effect :
    (∀ (s : ExtruderState) (readings : List ℚ) (log : ℚ → ℚ) (t v : ℚ),
      t - s.previous_time ≤ 1/10 →
      temperature_control_loop s readings log t v = ⟨s, readings, none, []⟩) ∧
    (∀ (s : SpoolerState) (t : ℚ) (enc : ℤ) (sp sl ic : ℚ),
      t - s.previous_time ≤ 1/10 →
      dc_motor_close_loop_control s t enc sp sl ic = ⟨s, none, [], none, none⟩) ∧
    (∀ (s : SpoolerState) (t : ℚ) (enc : ℤ) (target : ℚ) (readings : List ℚ)
      (st sl ic : ℚ),
      t - s.previous_time ≤ 1/10 →
      motor_control_loop s t enc target readings st sl ic
        = ⟨s, none, [], none, none⟩) := by
  refine ⟨fun s readings log t v h => ?_, fun s t enc sp sl ic h => ?_,
    fun s t enc target readings st sl ic h => ?_⟩
  · unfold temperature_control_loop; rw [if_pos h]
  · unfold dc_motor_close_loop_control; rw [if_pos h]
  · unfold motor_control_loop; rw [if_pos h]

/-- Claim C4 (witness): `C4_rate_gate_no_effect` at `current_time = 0.05`
from the initial states (`previous_time = 0`), half a sample interval. -/
theorem C4_witness :
    temperature_control_loop initExtruderState [] (fun _ => 0) (1/20) 1
      = ⟨initExtruderState, [], none, []⟩ ∧
    dc_motor_close_loop_control initSpoolerState (1/20) 3 1 1 1
      = ⟨initSpoolerState, none, [], none, none⟩ ∧
    motor_control_loop initSpoolerState (1/20) 3 1 [2] 1 1 1
      = ⟨initSpoolerState, none, [], none, none⟩ :=
  ⟨C4_rate_gate_no_effect.1 initExtruderState [] (fun _ => 0) (1/20) 1
      (by norm_num [initExtruderState]),
   C4_rate_gate_no_effect.2.1 initSpoolerState (1/20) 3 1 1 1
      (by norm_num [initSpoolerState]),
   C4_rate_gate_no_effect.2.2 initSpoolerState (1/20) 3 1 [2] 1 1 1
      (by norm_num [initSpoolerState])⟩

/-- Claim C6 (code bug).  The RPM computation subtracts raw encoder counts
without reducing modulo `2^32`.  With the previous count `2^32 - 100` (bytes
`0xFF 0xFF 0xFF 0x9C`), a current count of 50 and `Δt = 0.2 s`, the code
reports an RPM of `-53687089325/196 ≈ -2.7·10^8`, a spuriously large negative
value, whereas the true forward displacement `(50 - (2^32 - 100)) mod 2^32 =
150` would give the positive `1875/196 ≈ 9.57` RPM. -/
theorem C6_wraparound :
    read_encoder 255 255 255 156 = 2^32 - 100 ∧
    (dc_motor_close_loop_control
        { initSpoolerState with previous_position := read_encoder 255 255 255 156 }
        (1/5) 50 0 0 0).currentRpm = some (-(53687089325/196)) ∧
    (-(53687089325/196) : ℚ) < 0 ∧
    spec_forward_displacement 50 (read_encoder 255 255 255 156) = 150 ∧
    ((spec_forward_displacement 50 (read_encoder 255 255 255 156) : ℤ) : ℚ)
        / 4704 * (60 / (1/5)) = 1875/196 ∧
    (0 : ℚ) < 1875/196 := by
  refine ⟨by decide, ?_, by norm_num, by decide, ?_, by norm_num⟩
  · norm_num [dc_motor_close_loop_control, read_encoder, initSpoolerState,
      Nat.shiftLeft_eq]
  · have h150 : spec_forward_displacement 50 (read_encoder 255 255 255 156) = 150 := by
      decide
    rw [h150]
    norm_num

/-- Claim C8 (counterexample).  If an exception other than
`KeyboardInterrupt` is raised during the sweep (here: after the third duty
command, with the motor already driven at 20 % duty), `Spooler.calibrate`
propagates it immediately: `self.stop()` never runs and the drive is not
returned to zero. -/
theorem C8_counterexample :
    (spooler_calibrate (some (3, PyExc.other))).1 = [20, 20, 20] ∧
    (spooler_calibrate (some (3, PyExc.other))).2.1 = false ∧
    (spooler_calibrate (some (3, PyExc.other))).2.2 = true := by
  exact ⟨by decide, rfl, rfl⟩

/-- Claim C8 (amended).  `Spooler.calibrate` returns the drive to zero
(`self.stop()` runs) on normal completion and on `KeyboardInterrupt`
cancellation — the only exception class its handler catches — but an
exception of any other class propagates with the drive still energised. -/
theorem C8_amended :
    ∀ o : Option (ℕ × PyExc), (∀ k, o ≠ some (k, PyExc.other)) →
      (spooler_calibrate o).2.1 = true ∧ (spooler_calibrate o).2.2 = false := by
  intro o h
  match o with
  | none => exact ⟨rfl, rfl⟩
  | some (k, PyExc.keyboardInterrupt) => exact ⟨rfl, rfl⟩
  | some (k, PyExc.other) => exact absurd rfl (h k)

/-- Claim C8 (witness): `C8_amended` on a `KeyboardInterrupt` after two duty
commands. -/
theorem C8_witness :
    (spooler_calibrate (some (2, PyExc.keyboardInterrupt))).2.1 = true ∧
    (spooler_calibrate (some (2, PyExc.keyboardInterrupt))).2.2 = false :=
  C8_amended (some (2, PyExc.keyboardInterrupt)) (fun k => by simp)

/-- Claim C10 (confirmed).  `Spooler.get_average_diameter` is defined exactly
on non-empty histories: there it returns the arithmetic mean of the last
`min(10, length)` readings, while on the empty history its division by the
length raises `ZeroDivisionError` (`none`); consequently a diameter-cascade
tick before any camera frame writes no duty cycle, appends no telemetry, and
leaves everything but `previous_time`/`previous_position` unchanged — it
aborts through the loop's catch-all handler. -/
theorem C10_average_diameter :
    get_average_diameter [] = none ∧
    (∀ l : List ℚ, l ≠ [] → get_average_diameter l = some (spec_mean_last l)) ∧
    (∀ (s : SpoolerState) (t : ℚ) (enc : ℤ) (target stepper sl ic : ℚ),
      1/10 < t - s.previous_time →
      (motor_control_loop s t enc target [] stepper sl ic).duty = none ∧
      (motor_control_loop s t enc target [] stepper sl ic).telemetry = [] ∧
      (motor_control_loop s t enc target [] stepper sl ic).state
        = { s with previous_time := t, previous_position := enc }) := by
  refine ⟨rfl, ?_, ?_⟩
  · intro l hl
    unfold get_average_diameter spec_mean_last
    by_cases hlen : l.length < 10
    · rw [if_pos hlen, if_neg (fun h0 => hl (List.length_eq_zero.mp h0))]
      rw [min_eq_right (le_of_lt hlen)]
      simp
    · rw [if_neg hlen, min_eq_left (le_of_not_lt hlen)]
      norm_num
  · intro s t enc target stepper sl ic h
    unfold motor_control_loop
    rw [if_neg (not_le.mpr h)]
    exact ⟨rfl, rfl, rfl⟩

/-- Claim C10 (witness): `C10_average_diameter` on the two-element history
`[1, 2]` and on a cascade tick at `t = 1` with the empty history. -/
theorem C10_witness :
    get_average_diameter [1, 2] = some (spec_mean_last [1, 2]) ∧
    (motor_control_loop initSpoolerState 1 7 2 [] 3 4 5).duty = none ∧
    (motor_control_loop initSpoolerState 1 7 2 [] 3 4 5).state
      = { initSpoolerState with previous_time := 1, previous_position := 7 } :=
  ⟨C10_average_diameter.2.1 [1, 2] (by simp),
   (C10_average_diameter.2.2 initSpoolerState 1 7 2 3 4 5
      (by norm_num [initSpoolerState])).1,
   (C10_average_diameter.2.2 initSpoolerState 1 7 2 3 4 5
      (by norm_num [initSpoolerState])).2.2⟩

end MitFred
